import Mathlib

/-!
Verification of the target-selection, dependency-resolution and
build/package/pull orchestration of the unikraft builder driver
(`builder/unikraft/driver_kraft_import.go`).

The Go driver is shallowly embedded: external collaborators (project
loader, package-manager catalog, pull/configure/prepare/build/pack
calls) are modelled as fields of an explicit "world" record, and each
command returns, besides its `error` result, a trace of the external
calls it performed, so that discarded error results and skipped calls
are observable.
-/

namespace Unikraft

/-- A build target, as exposed by `target.Target` (name, architecture
name, platform name, declared package format, kernel artifact, debug
flag, initrd, command, kconfig). -/
structure Target where
  name : String
  archName : String
  platName : String
  format : String
  kernel : String := ""
  kernelDbg : Bool := false
  initrd : String := ""
  command : List String := []
  kconfig : List (String × String) := []
deriving Repr, DecidableEq

/-- A project component (`component.Component`): name, component type,
version and source locator. -/
structure Component where
  name : String
  ctype : String
  version : String
  source : String
deriving Repr, DecidableEq

/-- `packmanager.CatalogQuery`: the read-only catalog request value. -/
structure CatalogQuery where
  name : String
  types : List String
  version : String
  source : String
  noCache : Bool
deriving Repr, DecidableEq

/-- An opaque package handle (`pack.Package`), identified for the model
by an id string. -/
structure Package where
  id : String
deriving Repr, DecidableEq

/-- The `Build` options struct of the driver. -/
structure Build where
  Architecture : String := ""
  DotConfig : String := ""
  Fast : Bool := false
  Jobs : Nat := 0
  KernelDbg : Bool := false
  NoCache : Bool := false
  NoConfigure : Bool := false
  NoFetch : Bool := false
  NoPrepare : Bool := false
  Platform : String := ""
  SaveBuildLog : String := ""
  Target : String := ""

/-- The type of one selection condition in `FilterTargets`. -/
def condition := Target → String → String → String → Bool

/-- The five selection conditions of `FilterTargets`, in source order:
no filter supplied; name filter matches; only arch supplied and
matches; only plat supplied and matches; arch and plat both supplied
and both match. -/
def conditions : List condition :=
  [ fun _ arch plat targ =>
      targ.length == 0 && arch.length == 0 && plat.length == 0,
    fun t _ _ targ =>
      targ.length != 0 && t.name == targ,
    fun t arch plat _ =>
      arch.length != 0 && plat.length == 0 && t.archName == arch,
    fun t arch plat _ =>
      plat.length != 0 && arch.length == 0 && t.platName == plat,
    fun t arch plat _ =>
      plat.length != 0 && arch.length != 0 && t.archName == arch
        && t.platName == plat ]

/-- `FilterTargets`: for each target, for each condition, if the
condition holds the target is appended to the selection (the Go loop
does not break after a match, so a target is appended once per
satisfied condition). -/
def FilterTargets : List Target → String → String → String → List Target
  | [], _, _, _ => []
  | t :: rest, arch, plat, targ =>
    (conditions.filterMap fun c =>
      if c t arch plat targ then some t else none)
      ++ FilterTargets rest arch plat targ

end Unikraft

deriving instance DecidableEq for Except

namespace Unikraft

/-- Trace of external calls a command performs.  Constructors that
carry an `Except String Unit` record the result of a call whose error
return the Go code discards. -/
inductive Ev
  | query (q : CatalogQuery)
  | pulled (p : Package) (r : Except String Unit)
  | configured (t : Target) (r : Except String Unit)
  | prepared (t : Target) (r : Except String Unit)
  | built (t : Target) (r : Except String Unit)
  | fromCalled (fmt : String)
  | packed (pm : String) (t : Target)
  | warnQueryErr (fmt : String) (name : String) (e : String)
  | warnNotFound (q : CatalogQuery)
  | projectLoaded (workdir : String)
  | setCalled
deriving Repr, DecidableEq

/-- The distinct error returns of `BuildCmd`, one constructor per
`return` site. -/
inductive BuildErr
  | usageConflict
  | projectLoadErr (e : String)
  | uninitialized
  | componentsErr (e : String)
  | catalogErr (e : String)
  | notFound (c : Component)
  | tooMany (c : Component)
  | noTargets
deriving Repr, DecidableEq

/-- The catalog query `BuildCmd` issues for one declared component:
name, singleton type list, version, source, and the `NoCache` flag. -/
def queryFor (c : Component) (noCache : Bool) : CatalogQuery :=
  { name := c.name
    types := [c.ctype]
    version := c.version
    source := c.source
    noCache := noCache }

/-- The component-resolution loop of `BuildCmd` (lines 148-175): for
each component, one catalog query; a catalog error propagates; zero
results fail with "could not find" naming the component; more than one
result fails with "too many options" naming the component; exactly one
result is appended to the pull list. -/
def resolveComponents (catalog : CatalogQuery → Except String (List Package))
    (noCache : Bool) :
    List Component → List Ev × Except BuildErr (List Package)
  | [] => ([], .ok [])
  | c :: rest =>
    let q := queryFor c noCache
    match catalog q with
    | .error e => ([Ev.query q], .error (.catalogErr e))
    | .ok ps =>
      if ps.length == 0 then
        ([Ev.query q], .error (.notFound c))
      else if ps.length > 1 then
        ([Ev.query q], .error (.tooMany c))
      else
        match resolveComponents catalog noCache rest with
        | (tr, .error e) => (Ev.query q :: tr, .error e)
        | (tr, .ok packs) => (Ev.query q :: tr, .ok (ps ++ packs))

/-- The collaborators `BuildCmd` interacts with: the project loader
result, the workdir-initialization check, the declared components, the
project targets, the catalog, and the pull/configure/prepare/build
calls.  Workdir plumbing (`os.Getwd`), make/log options and the
renderer width bookkeeping are presentation-level plumbing absorbed
into these functions. -/
structure BuildWorld where
  projectLoad : Except String Unit
  initialized : Bool
  components : Except String (List Component)
  targets : List Target
  catalog : CatalogQuery → Except String (List Package)
  pull : Package → Except String Unit
  configure : Target → Except String Unit
  prepare : Target → Except String Unit
  build : Target → Except String Unit

/-- The per-target stage loop of `BuildCmd` (lines 208-249): configure
unless `NoConfigure`, prepare unless `NoPrepare`, then build; every
stage result is discarded (recorded only in the trace). -/
def buildStages (opts : Build) (w : BuildWorld) : List Target → List Ev
  | [] => []
  | t :: rest =>
    ((if !opts.NoConfigure then [Ev.configured t (w.configure t)] else [])
      ++ (if !opts.NoPrepare then [Ev.prepared t (w.prepare t)] else [])
      ++ [Ev.built t (w.build t)])
      ++ buildStages opts w rest

/-- `BuildCmd`: usage-conflict check, project load, initialization
check, component resolution, pulls (results discarded), target
selection via `FilterTargets`, empty-selection check, then the stage
loop (results discarded) and a `nil` return. -/
def BuildCmd (opts : Build) (w : BuildWorld) :
    List Ev × Except BuildErr Unit :=
  if (opts.Architecture.length != 0 || opts.Platform.length != 0)
      && opts.Target.length != 0 then
    ([], .error .usageConflict)
  else
    match w.projectLoad with
    | .error e => ([], .error (.projectLoadErr e))
    | .ok _ =>
      if !w.initialized then
        ([], .error .uninitialized)
      else
        match w.components with
        | .error e => ([], .error (.componentsErr e))
        | .ok comps =>
          match resolveComponents w.catalog opts.NoCache comps with
          | (tr, .error e) => (tr, .error e)
          | (tr, .ok missingPacks) =>
            let pullEvs :=
              if missingPacks.length > 0 then
                missingPacks.map fun p => Ev.pulled p (w.pull p)
              else []
            let selected :=
              FilterTargets w.targets opts.Architecture opts.Platform
                opts.Target
            if selected.length == 0 then
              (tr ++ pullEvs, .error .noTargets)
            else
              (tr ++ pullEvs ++ buildStages opts w selected, .ok ())

/-- The `Pkg` options struct of the driver. -/
structure Pkg where
  Architecture : String := ""
  Dbg : Bool := false
  Force : Bool := false
  Format : String := "auto"
  Initrd : String := ""
  Kernel : String := ""
  Name : String := ""
  Output : String := ""
  Platform : String := ""
  Target : String := ""
  Volumes : List String := []
  WithKConfig : Bool := false

/-- The distinct error returns of `PkgCmd`. -/
inductive PkgErr
  | projectLoadErr (e : String)
  | fromErr (e : String)
  | newTargetErr (e : String)
  | packErr (e : String)
deriving Repr, DecidableEq

/-- The selection switch of `PkgCmd` (lines 299-324): the same five
conditions as `FilterTargets`, joined as one disjunction (a Go
`switch` runs its body once even when several case expressions hold).
-/
def pkgMatches (opts : Pkg) (t : Target) : Bool :=
  (opts.Target.length == 0 && opts.Architecture.length == 0
    && opts.Platform.length == 0)
  || (opts.Target.length != 0 && t.name == opts.Target)
  || (opts.Architecture.length != 0 && opts.Platform.length == 0
    && t.archName == opts.Architecture)
  || (opts.Platform.length != 0 && opts.Architecture.length == 0
    && t.platName == opts.Platform)
  || (opts.Platform.length != 0 && opts.Architecture.length != 0
    && t.archName == opts.Architecture && t.platName == opts.Platform)

/-- Format resolution of `PkgCmd` (lines 326-332): the explicit
override when it is not "auto"; else the target's declared format when
non-empty; else the zero value of `pack.PackageFormat`, the empty
string. -/
def resolvedFormat (optsFormat declared : String) : String :=
  if optsFormat != "auto" then optsFormat
  else if declared != "" then declared
  else ""

/-- The `From` routing decision of `PkgCmd` (line 341): `pm.From` is
called with the resolved format whenever that format differs from
"auto"; otherwise the process-wide default manager is kept. -/
def fromFormatArg (format : String) : Option String :=
  if format != "auto" then some format else none

/-- `unikraft.UK_FULLVERSION` (modelled from the kraftkit library: the
kconfig key whose value is passed as a kernel-version hint). -/
def UK_FULLVERSION : String := "CONFIG_UK_FULLVERSION"

/-- The pack options `PkgCmd` assembles (lines 348-358). -/
structure PackOptions where
  kconfig : Bool
  output : String
  initrd : String
  kernelVersion : Option String
deriving Repr, DecidableEq

/-- `mkPackOptions`: KConfig flag, output, initrd, and the
kernel-version hint when the target's kconfig has `UK_FULLVERSION`. -/
def mkPackOptions (opts : Pkg) (t : Target) : PackOptions :=
  { kconfig := opts.WithKConfig
    output := opts.Output
    initrd := opts.Initrd
    kernelVersion :=
      (t.kconfig.find? fun kv => kv.fst == UK_FULLVERSION).map Prod.snd }

/-- The packaging snapshot built by `target.NewTargetFromOptions`
(lines 360-369): the override name with the matched target's
architecture, platform, kconfig, kernel, debug flag, initrd and
command; the declared format is not carried over. -/
def pkgSnapshot (t : Target) (name : String) : Target :=
  { name := name
    archName := t.archName
    platName := t.platName
    format := ""
    kernel := t.kernel
    kernelDbg := t.kernelDbg
    initrd := t.initrd
    command := t.command
    kconfig := t.kconfig }

/-- The collaborators `PkgCmd` interacts with. -/
structure PkgWorld where
  projectLoad : Except String Unit
  targets : List Target
  defaultPM : String
  pmFrom : String → Except String String
  newTargetCheck : Target → Except String Unit
  pack : String → Target → PackOptions → Except String Unit

/-- The body `PkgCmd` runs for one matched target: resolve the format,
route via `From` when `fromFormatArg` yields an argument, validate the
snapshot target, and pack; `From`, snapshot-construction and pack
errors all propagate. -/
def pkgOne (opts : Pkg) (w : PkgWorld) (t : Target) :
    List Ev × Except PkgErr Unit :=
  let format := resolvedFormat opts.Format t.format
  let pmRes : List Ev × Except String String :=
    match fromFormatArg format with
    | some f => ([Ev.fromCalled f], w.pmFrom f)
    | none => ([], .ok w.defaultPM)
  match pmRes with
  | (evs, .error e) => (evs, .error (.fromErr e))
  | (evs, .ok pm) =>
    let snap := pkgSnapshot t opts.Name
    match w.newTargetCheck snap with
    | .error e => (evs, .error (.newTargetErr e))
    | .ok _ =>
      match w.pack pm snap (mkPackOptions opts t) with
      | .error e => (evs, .error (.packErr e))
      | .ok _ => (evs ++ [Ev.packed pm snap], .ok ())

/-- The target loop of `PkgCmd` (lines 295-381): non-matching targets
are skipped via `continue`; a matched target's errors propagate; the
loop over zero matching targets falls through to `return nil`. -/
def pkgLoop (opts : Pkg) (w : PkgWorld) :
    List Target → List Ev × Except PkgErr Unit
  | [] => ([], .ok ())
  | t :: rest =>
    if pkgMatches opts t then
      match pkgOne opts w t with
      | (evs, .error e) => (evs, .error e)
      | (evs, .ok _) =>
        match pkgLoop opts w rest with
        | (evs2, r) => (evs ++ evs2, r)
    else pkgLoop opts w rest

/-- `PkgCmd`: project load, then the per-target packaging loop; there
is no empty-selection check. -/
def PkgCmd (opts : Pkg) (w : PkgWorld) : List Ev × Except PkgErr Unit :=
  match w.projectLoad with
  | .error e => ([], .error (.projectLoadErr e))
  | .ok _ => pkgLoop opts w w.targets

/-- The `Pull` options struct of the driver. -/
structure Pull where
  AllVersions : Bool := false
  Architecture : String := ""
  Manager : String := ""
  ForceCache : Bool := false
  NoChecksum : Bool := false
  NoDeps : Bool := false
  Platform : String := ""
  WithDeps : Bool := false
  Workdir : String := ""

/-- The distinct error returns of `PullCmd`. -/
inductive PullErr
  | fromErr (e : String)
  | projectLoadErr (e : String)
  | catalogErr (e : String)
  | notFound (c : Component)
  | tooMany (c : Component)
  | placeErr (e : String)
  | templateLoadErr (e : String)
  | mergeErr (e : String)
  | componentsErr (e : String)
deriving Repr, DecidableEq

/-- The catalog query `PullCmd` issues for a project template (lines
477-482): name, the App component type, version, and the negated
force-cache flag; the source field keeps its zero value. -/
def templateQuery (c : Component) (noCache : Bool) : CatalogQuery :=
  { name := c.name
    types := ["app"]
    version := c.version
    source := ""
    noCache := noCache }

/-- The catalog query `PullCmd` builds per merged-project component
(lines 526-535). -/
def componentQuery (c : Component) (noCache : Bool) : CatalogQuery :=
  { name := c.name
    types := [c.ctype]
    version := c.version
    source := c.source
    noCache := noCache }

/-- The catalog query `PullCmd` builds per list-mode argument (lines
546-552): only the name and the cache flag are set. -/
def listQuery (arg : String) (noCache : Bool) : CatalogQuery :=
  { name := arg
    types := []
    version := ""
    source := ""
    noCache := noCache }

/-- The collaborators `PullCmd` interacts with.  `isDir` is the
`os.Stat(args[0])` directory probe; `isCompat` returns the claiming
manager and the compatibility flag. -/
structure PullWorld where
  cwd : String
  defaultPM : String
  pmFrom : String → Except String String
  isCompat : String → Except String (String × Bool)
  isDir : Bool
  projectLoad : Except String Unit
  componentsRes : Except String (List Component)
  template : Component
  placeComponent : Except String String
  templateLoad : Except String Unit
  mergeRes : Except String Unit
  mergedComponents : Except String (List Component)
  catalog : String → CatalogQuery → Except String (List Package)
  pull : Package → Except String Unit

/-- The list-mode accumulation loop of `PullCmd` (lines 539-554): an
argument whose compatibility probe errors or reports incompatible is
skipped; a compatible argument contributes one (manager, query) pair
using the manager returned by the probe. -/
def listQueries (w : PullWorld) (noCache : Bool) :
    List String → List (String × CatalogQuery)
  | [] => []
  | arg :: rest =>
    match w.isCompat arg with
    | .error _ => listQueries w noCache rest
    | .ok (pm2, compatible) =>
      if compatible then
        (pm2, listQuery arg noCache) :: listQueries w noCache rest
      else listQueries w noCache rest

/-- The query-execution loop of `PullCmd` (lines 556-580): a catalog
error is logged as a warning (with the outer manager's format and the
query name) and the query is skipped; an empty result is logged as a
"could not find" warning and skipped; otherwise every returned package
is pulled, the pull results being discarded.  The loop never fails. -/
def runQueries (w : PullWorld) (pmFmt : String) :
    List (String × CatalogQuery) → List Ev
  | [] => []
  | (pm, q) :: rest =>
    (Ev.query q ::
      match w.catalog pm q with
      | .error e => [Ev.warnQueryErr pmFmt q.name e]
      | .ok ps =>
        if ps.length == 0 then [Ev.warnNotFound q]
        else ps.map fun p => Ev.pulled p (w.pull p))
      ++ runQueries w pmFmt rest

/-- The directory-mode accumulation of `PullCmd` (lines 463-536): load
the project; when its components cannot be enumerated, resolve the
template against the catalog with the one/zero/many rules and pull it
(pull result discarded); then locate the template, load it, merge it,
enumerate the merged components and build one query per component. -/
def dirQueries (opts : Pull) (w : PullWorld) (pm : String) :
    List Ev × Except PullErr (List (String × CatalogQuery)) :=
  match w.projectLoad with
  | .error e => ([], .error (.projectLoadErr e))
  | .ok _ =>
    let step : List Ev × Except PullErr Unit :=
      match w.componentsRes with
      | .ok _ => ([], .ok ())
      | .error _ =>
        let q := templateQuery w.template (!opts.ForceCache)
        match w.catalog pm q with
        | .error e => ([Ev.query q], .error (.catalogErr e))
        | .ok [] => ([Ev.query q], .error (.notFound w.template))
        | .ok [p] => ([Ev.query q, Ev.pulled p (w.pull p)], .ok ())
        | .ok (_ :: _ :: _) => ([Ev.query q], .error (.tooMany w.template))
    match step with
    | (evs, .error e) => (evs, .error e)
    | (evs, .ok _) =>
      match w.placeComponent with
      | .error e => (evs, .error (.placeErr e))
      | .ok _ =>
        match w.templateLoad with
        | .error e => (evs, .error (.templateLoadErr e))
        | .ok _ =>
          match w.mergeRes with
          | .error e => (evs, .error (.mergeErr e))
          | .ok _ =>
            match w.mergedComponents with
            | .error e => (evs, .error (.componentsErr e))
            | .ok comps =>
              (evs,
                .ok (comps.map fun c =>
                  (pm, componentQuery c (!opts.ForceCache))))

/-- The manager-override step of `PullCmd` (lines 447-452): a
non-empty manager option other than "auto" forces `pm.From`, otherwise
the process-wide default manager is kept. -/
def managerOverride (opts : Pull) (w : PullWorld) : Except String String :=
  if opts.Manager.length != 0 && opts.Manager != "auto" then
    w.pmFrom opts.Manager
  else .ok w.defaultPM

/-- `PullCmd`: resolve the working directory and default arguments,
apply the manager override, accumulate queries in directory or list
mode, then execute them with `runQueries`; the execution loop is never
fatal, so after accumulation succeeds the command returns `nil`. -/
def PullCmd (opts : Pull) (args : List String) (w : PullWorld) :
    List Ev × Except PullErr Unit :=
  let workdir := if opts.Workdir.length == 0 then w.cwd else opts.Workdir
  let args := if args.length == 0 then [workdir] else args
  match managerOverride opts w with
  | .error e => ([], .error (.fromErr e))
  | .ok pm =>
    if w.isDir then
      match dirQueries opts w pm with
      | (evs, .error e) => (evs, .error e)
      | (evs, .ok queries) => (evs ++ runQueries w pm queries, .ok ())
    else
      (runQueries w pm (listQueries w (!opts.ForceCache) args), .ok ())

/-- The `Set` options struct of the driver. -/
structure Set where
  Workdir : String := ""

/-- The argument-validation loop of `SetCmd` (lines 683-689): every
argument must contain '=' (`strings.ContainsRune`) and not end in "="
(`strings.HasSuffix` with the one-character suffix "="); a bad
argument fails with "invalid or malformed argument".  The two string
probes are expressed on the character list of the argument. -/
def checkArgs : List String → Except String (List String)
  | [] => .ok []
  | arg :: rest =>
    if !(arg.data.contains '=') || arg.data.getLast? == some '=' then
      .error ("invalid or malformed argument: " ++ arg)
    else
      match checkArgs rest with
      | .error e => .error e
      | .ok cs => .ok (arg :: cs)

/-- The collaborators `SetCmd` interacts with: the working directory,
the `os.Stat` existence probe, the project loader (taking the
validated key=value options) and the project `Set` call. -/
structure SetWorld where
  cwd : String
  fileExists : String → Bool
  projectLoad : List String → Except String Unit
  projectSet : Except String Unit

/-- `SetCmd`: reject empty argument lists, resolve the workdir,
validate the arguments, require `<workdir>/.config` to exist (failing
with a message naming that path before the project is loaded), then
load the project and call its `Set`. -/
def SetCmd (opts : Set) (args : List String) (w : SetWorld) :
    List Ev × Except String Unit :=
  if args.length == 0 then ([], .error "no options to set")
  else
    let workdir := if opts.Workdir != "" then opts.Workdir else w.cwd
    match checkArgs args with
    | .error e => ([], .error e)
    | .ok confOpts =>
      let dotconfig := workdir ++ "/.config"
      if !w.fileExists dotconfig then
        ([], .error ("dotconfig file does not exist: " ++ dotconfig))
      else
        match w.projectLoad confOpts with
        | .error e => ([Ev.projectLoaded workdir], .error e)
        | .ok _ => ([Ev.projectLoaded workdir, Ev.setCalled], w.projectSet)

/-! Concrete fixtures used to instantiate the theorems below. -/

/-- A target with architecture x86_64 on platform qemu. -/
def tgtA : Target :=
  { name := "A", archName := "x86_64", platName := "qemu", format := "" }

/-- A target with architecture arm64 on platform qemu. -/
def tgtB : Target :=
  { name := "B", archName := "arm64", platName := "qemu", format := "" }

/-- A target whose declared package format is "raw". -/
def tgtRaw : Target := { tgtA with format := "raw" }

/-- A declared library component. -/
def compLib : Component :=
  { name := "lib", ctype := "lib", version := "1.0", source := "srcloc" }

/-- A project template component. -/
def compTmpl : Component :=
  { name := "helloworld", ctype := "app", version := "stable", source := "" }

/-- A concrete package. -/
def pkg1 : Package := { id := "pkg1" }

/-- A second concrete package. -/
def pkg2 : Package := { id := "pkg2" }

/-- A catalog holding exactly one package for the `compLib` query. -/
def catalogOne : CatalogQuery → Except String (List Package) :=
  fun q => if q.name == "lib" then .ok [pkg1] else .ok []

/-- A catalog returning no package for any query. -/
def catalogNone : CatalogQuery → Except String (List Package) :=
  fun _ => .ok []

/-- A catalog returning two packages for any query. -/
def catalogTwo : CatalogQuery → Except String (List Package) :=
  fun _ => .ok [pkg1, pkg2]

/-- A build world whose pull and all three stages fail. -/
def buildWorld1 : BuildWorld :=
  { projectLoad := .ok ()
    initialized := true
    components := .ok [compLib]
    targets := [tgtA]
    catalog := catalogOne
    pull := fun _ => .error "pull failed"
    configure := fun _ => .error "configure failed"
    prepare := fun _ => .error "prepare failed"
    build := fun _ => .error "build failed" }

/-- The failing build world with a catalog that finds nothing. -/
def buildWorldNone : BuildWorld := { buildWorld1 with catalog := catalogNone }

/-- The failing build world with a catalog that finds two packages. -/
def buildWorldTwo : BuildWorld := { buildWorld1 with catalog := catalogTwo }

/-- A packaging world with the single target `tgtA` and collaborators
that always succeed. -/
def pkgWorld1 : PkgWorld :=
  { projectLoad := .ok ()
    targets := [tgtA]
    defaultPM := "manifest"
    pmFrom := fun f => .ok ("pm-" ++ f)
    newTargetCheck := fun _ => .ok ()
    pack := fun _ _ _ => .ok () }

/-- A list-mode pull world: "bad" is claimed incompatible, the catalog
errors on "x" and finds nothing elsewhere. -/
def pullWorldList : PullWorld :=
  { cwd := "/w"
    defaultPM := "manifest"
    pmFrom := fun f => .ok f
    isCompat := fun arg =>
      if arg == "bad" then .ok ("manifest", false) else .ok ("manifest", true)
    isDir := false
    projectLoad := .ok ()
    componentsRes := .error "no components"
    template := compTmpl
    placeComponent := .ok "/w/tpl"
    templateLoad := .ok ()
    mergeRes := .ok ()
    mergedComponents := .ok []
    catalog := fun _ q => if q.name == "x" then .error "boom" else .ok []
    pull := fun _ => .ok () }

/-- A directory-mode pull world whose project components cannot be
enumerated and whose catalog finds nothing. -/
def pullWorldDir : PullWorld :=
  { pullWorldList with isDir := true, catalog := fun _ _ => .ok [] }

/-- A set world whose working directory holds no `.config` file. -/
def setWorld1 : SetWorld :=
  { cwd := "/w"
    fileExists := fun _ => false
    projectLoad := fun _ => .ok ()
    projectSet := .ok () }

/-! Selector lemmas. -/

/-- With all three filters empty, only the first condition holds, so
one pass over the conditions list selects the target exactly once. -/
theorem selectConditions_empty (t : Target) :
    (conditions.filterMap fun c => if c t "" "" "" then some t else none)
      = [t] := rfl

/-- With only the name filter set (non-empty), one pass over the
conditions list selects the target exactly when its name matches. -/
theorem selectConditions_name (t : Target) (n : String)
    (hn : n.length ≠ 0) :
    (conditions.filterMap fun c => if c t "" "" n then some t else none)
      = if t.name == n then [t] else [] := by
  have h0 : (n.length == 0) = false := by
    simp [hn]
  have h1 : (n.length != 0) = true := by
    simp [bne, h0]
  cases h : t.name == n <;>
    simp [conditions, h0, h1, h]

/-- When no target of the set carries the filtered name, name-only
selection is empty. -/
theorem filterTargets_name_none (T : List Target) (n : String)
    (hn : n.length ≠ 0) (h : ∀ u ∈ T, u.name ≠ n) :
    FilterTargets T "" "" n = [] := by
  induction T with
  | nil => rfl
  | cons u rest ih =>
    have hu : (u.name == n) = false := by
      simp [h u (List.mem_cons_self u rest)]
    simp [FilterTargets, selectConditions_name u n hn, hu]
    exact ih fun v hv => h v (List.mem_cons_of_mem u hv)

/-- C7: for every target set, `FilterTargets` with all three filters
empty (architecture, platform, name) returns all targets in their
original relative order. -/
theorem C7_select_all_when_no_filters (T : List Target) :
    FilterTargets T "" "" "" = T := by
  induction T with
  | nil => rfl
  | cons t rest ih =>
    simp [FilterTargets, selectConditions_empty, ih]

/-- C2 counterexample: on the singleton target set {A} with unique
names, selecting with name filter "A" does not return exactly {A} for
every value of the architecture filter: with the architecture filter
also set to A's architecture, A satisfies both the name condition and
the arch-only condition and is appended twice. -/
theorem C2_counterexample :
    FilterTargets [tgtA] "x86_64" "" "A" = [tgtA, tgtA]
      ∧ [tgtA, tgtA] ≠ [tgtA] := by
  decide

/-- C2 (amended): for every target set with unique target names and
empty architecture and platform filters, selecting with the name
filter equal to a member's non-empty name returns exactly that
singleton.  (As stated the claim fails: with a non-empty architecture
or platform filter alongside the name filter, a target is appended
once per satisfied condition, so it can appear twice and further
targets matching the arch/plat conditions are also selected.) -/
theorem C2_select_by_name (T : List Target) (t : Target)
    (hmem : t ∈ T)
    (hnodup : (T.map Target.name).Nodup)
    (hn : t.name.length ≠ 0) :
    FilterTargets T "" "" t.name = [t] := by
  induction T with
  | nil => cases hmem
  | cons u rest ih =>
    have hnd : (∀ v ∈ rest, v.name ≠ u.name)
        ∧ (List.map Target.name rest).Nodup := by
      simpa using hnodup
    rcases List.mem_cons.mp hmem with heq | hmemr
    · subst heq
      have hrest : FilterTargets rest "" "" t.name = [] :=
        filterTargets_name_none rest t.name hn fun v hv => hnd.1 v hv
      simp [FilterTargets, selectConditions_name t t.name hn, hrest]
    · have hune : (u.name == t.name) = false := by
        simp [Ne.symm (hnd.1 t hmemr)]
      simp [FilterTargets, selectConditions_name u t.name hn, hune]
      exact ih hmemr hnd.2

/-- C2 witness: on the two-target set {A, B} with unique names, name
selection for "A" returns exactly {A}. -/
theorem C2_select_by_name_witness :
    FilterTargets [tgtA, tgtB] "" "" "A" = [tgtA] := by
  have h := C2_select_by_name [tgtA, tgtB] tgtA (by decide) (by decide)
    (by decide)
  simpa using h

/-- C1: in the build path, each declared component triggers exactly
one catalog query carrying its name, type, version and source; zero
results make the command fail with "could not find" naming the
component, two or more results make it fail with "too many options"
naming the component, and exactly one result appends that package to
the pull list (no implicit pick-first), resolution continuing with the
remaining components. -/
theorem C1_component_resolution (opts : Build) (w : BuildWorld)
    (c : Component) (rest : List Component)
    (hconf : ((opts.Architecture.length != 0 || opts.Platform.length != 0)
      && opts.Target.length != 0) = false)
    (hload : w.projectLoad = .ok ())
    (hinit : w.initialized = true)
    (hcomps : w.components = .ok (c :: rest)) :
    (w.catalog (queryFor c opts.NoCache) = .ok [] →
      BuildCmd opts w
        = ([Ev.query (queryFor c opts.NoCache)], .error (.notFound c)))
  ∧ (∀ p p' ps,
      w.catalog (queryFor c opts.NoCache) = .ok (p :: p' :: ps) →
      BuildCmd opts w
        = ([Ev.query (queryFor c opts.NoCache)], .error (.tooMany c)))
  ∧ (∀ p, w.catalog (queryFor c opts.NoCache) = .ok [p] →
      resolveComponents w.catalog opts.NoCache (c :: rest)
        = (Ev.query (queryFor c opts.NoCache)
            :: (resolveComponents w.catalog opts.NoCache rest).fst,
          (resolveComponents w.catalog opts.NoCache rest).snd.map
            fun packs => p :: packs)) := by
  refine ⟨?_, ?_, ?_⟩
  · intro hcat
    simp [BuildCmd, hconf, hload, hinit, hcomps, resolveComponents, hcat]
  · intro p p' ps hcat
    simp [BuildCmd, hconf, hload, hinit, hcomps, resolveComponents, hcat]
  · intro p hcat
    rw [resolveComponents]
    simp only [hcat]
    rcases hres : resolveComponents w.catalog opts.NoCache rest with ⟨tr, r⟩
    cases r <;> simp [hres, Except.map]

/-- C1 witness: with the concrete component `compLib`, the empty
catalog yields the not-found failure and the two-package catalog
yields the too-many-options failure, each after the single query. -/
theorem C1_component_resolution_witness :
    BuildCmd {} buildWorldNone
      = ([Ev.query (queryFor compLib false)], .error (.notFound compLib))
  ∧ BuildCmd {} buildWorldTwo
      = ([Ev.query (queryFor compLib false)], .error (.tooMany compLib)) := by
  constructor
  · exact (C1_component_resolution {} buildWorldNone compLib []
      (by decide) rfl rfl rfl).1 (by decide)
  · exact (C1_component_resolution {} buildWorldTwo compLib []
      (by decide) rfl rfl rfl).2.1 pkg1 pkg2 [] (by decide)

/-- C3 counterexample: in the concrete build world whose pull always
fails, the pull is attempted (its failing result appears in the trace)
yet `BuildCmd` still returns success — the pull failure does not
propagate to the caller. -/
theorem C3_counterexample :
    Ev.pulled pkg1 (.error "pull failed") ∈ (BuildCmd {} buildWorld1).fst
      ∧ (BuildCmd {} buildWorld1).snd = .ok () := by
  decide

/-- C3 (amended): in the build path the per-package pull results are
discarded — the error result of `BuildCmd` is the same whatever the
pull function returns, so configure/prepare/build always run after
resolution regardless of pull failures.  (The claim as stated fails:
`p.Pull`'s error return is dropped, so a pull failure never reaches
the caller.) -/
theorem C3_pull_errors_discarded (opts : Build) (w : BuildWorld)
    (p₁ p₂ : Package → Except String Unit) :
    (BuildCmd opts { w with pull := p₁ }).snd
      = (BuildCmd opts { w with pull := p₂ }).snd := by
  unfold BuildCmd
  dsimp only
  repeat' split <;> try rfl

/-- C10: whenever the usage check, project load, initialization check
and component resolution succeed and at least one target is selected,
`BuildCmd` returns success, for every behavior of the configure,
prepare and build stages: the per-target stage results are discarded.
-/
theorem C10_stage_failures_ignored (opts : Build) (w : BuildWorld)
    (comps : List Component) (tr : List Ev) (packs : List Package)
    (hconf : ((opts.Architecture.length != 0 || opts.Platform.length != 0)
      && opts.Target.length != 0) = false)
    (hload : w.projectLoad = .ok ())
    (hinit : w.initialized = true)
    (hcomps : w.components = .ok comps)
    (hres : resolveComponents w.catalog opts.NoCache comps
      = (tr, .ok packs))
    (hsel : FilterTargets w.targets opts.Architecture opts.Platform
      opts.Target ≠ []) :
    (BuildCmd opts w).snd = .ok () := by
  have hlen : ((FilterTargets w.targets opts.Architecture opts.Platform
      opts.Target).length == 0) = false := by
    simpa using hsel
  simp [BuildCmd, hconf, hload, hinit, hcomps, hres, hlen]

/-- C10 witness: the concrete build world whose configure, prepare and
build stages all fail still yields a successful `BuildCmd` run. -/
theorem C10_stage_failures_ignored_witness :
    (BuildCmd { NoConfigure := true } buildWorld1).snd = .ok () := by
  exact C10_stage_failures_ignored { NoConfigure := true } buildWorld1
    [compLib] [Ev.query (queryFor compLib false)] [pkg1]
    (by decide) rfl rfl rfl (by decide) (by decide)

/-- The packaging loop over targets none of which match the selection
switch packages nothing and succeeds. -/
theorem pkgLoop_no_match (opts : Pkg) (w : PkgWorld) (ts : List Target)
    (h : ∀ t ∈ ts, pkgMatches opts t = false) :
    pkgLoop opts w ts = ([], .ok ()) := by
  induction ts with
  | nil => rfl
  | cons t rest ih =>
    simp [pkgLoop, h t (List.mem_cons_self t rest)]
    exact ih fun v hv => h v (List.mem_cons_of_mem t hv)

/-- C4 counterexample: the pack operation on a world whose single
target matches none of the selection criteria returns success instead
of the claimed "no targets selected" error. -/
theorem C4_counterexample :
    pkgMatches { Target := "B" } tgtA = false
      ∧ (PkgCmd { Target := "B" } pkgWorld1).snd = .ok () := by
  decide

/-- C4 (amended): when the selection filters match no target, the
build operation fails with the "no targets selected" error, but the
pack operation succeeds vacuously — its target loop skips every
target and falls through to a `nil` return, with no empty-selection
check. -/
theorem C4_no_targets_selected :
    (∀ (opts : Build) (w : BuildWorld) (comps : List Component)
        (tr : List Ev) (packs : List Package),
      ((opts.Architecture.length != 0 || opts.Platform.length != 0)
        && opts.Target.length != 0) = false →
      w.projectLoad = .ok () →
      w.initialized = true →
      w.components = .ok comps →
      resolveComponents w.catalog opts.NoCache comps = (tr, .ok packs) →
      FilterTargets w.targets opts.Architecture opts.Platform
        opts.Target = [] →
      (BuildCmd opts w).snd = .error .noTargets)
  ∧ (∀ (opts : Pkg) (w : PkgWorld),
      w.projectLoad = .ok () →
      (∀ t ∈ w.targets, pkgMatches opts t = false) →
      (PkgCmd opts w).snd = .ok ()) := by
  constructor
  · intro opts w comps tr packs hconf hload hinit hcomps hres hsel
    simp [BuildCmd, hconf, hload, hinit, hcomps, hres, hsel]
  · intro opts w hload hmatch
    simp [PkgCmd, hload, pkgLoop_no_match opts w w.targets hmatch]

/-- C4 witness: build with an unmatched target name fails with the
no-targets error; pack with an unmatched target name succeeds. -/
theorem C4_no_targets_selected_witness :
    (BuildCmd { Target := "Z" } buildWorld1).snd = .error .noTargets
      ∧ (PkgCmd { Target := "Z" } pkgWorld1).snd = .ok () := by
  constructor
  · exact C4_no_targets_selected.1 { Target := "Z" } buildWorld1
      [compLib] [Ev.query (queryFor compLib false)] [pkg1]
      (by decide) rfl rfl rfl (by decide) (by decide)
  · exact C4_no_targets_selected.2 { Target := "Z" } pkgWorld1 rfl
      (by decide)

/-- C5 counterexample: with the override "auto" and an empty declared
format, the resolved format is the empty string, not "auto", and the
packaging path does call `From` — with the empty format string — on a
matched target, instead of keeping the default backend untouched. -/
theorem C5_counterexample :
    fromFormatArg (resolvedFormat "auto" "") = some ""
      ∧ Ev.fromCalled "" ∈ (PkgCmd {} pkgWorld1).fst := by
  decide

/-- C5 (amended): the resolved format is the explicit override when
it is not "auto", else the target's declared format when non-empty,
else the empty string; in that last case `From` is called with the
empty format string (the default backend is kept unchanged only when
the resolved format is literally "auto").  Declared "raw" under
override "auto" resolves to "raw", and override "qcow2" resolves to
"qcow2" regardless of the declared format. -/
theorem C5_format_precedence (o d : String) :
    (o ≠ "auto" → resolvedFormat o d = o)
  ∧ (o = "auto" → d ≠ "" → resolvedFormat o d = d)
  ∧ (o = "auto" → d = "" → resolvedFormat o d = ""
      ∧ fromFormatArg (resolvedFormat o d) = some "")
  ∧ fromFormatArg "auto" = none
  ∧ resolvedFormat "auto" "raw" = "raw"
  ∧ resolvedFormat "qcow2" d = "qcow2" := by
  refine ⟨?_, ?_, ?_, rfl, rfl, ?_⟩
  · intro h
    simp [resolvedFormat, h]
  · intro ho hd
    subst ho
    simp [resolvedFormat, hd]
  · intro ho hd
    subst ho; subst hd
    exact ⟨rfl, rfl⟩
  · simp [resolvedFormat]

/-- C5 witness: override "auto" with an empty declared format resolves
to the empty string and routes through `From ""`. -/
theorem C5_format_precedence_witness :
    resolvedFormat "auto" "" = ""
      ∧ fromFormatArg (resolvedFormat "auto" "") = some "" := by
  exact (C5_format_precedence "auto" "").2.2.1 rfl rfl

/-- A query event in the execution loop's trace comes from a query of
the accumulated list. -/
theorem runQueries_query_mem (w : PullWorld) (pmFmt : String)
    (qs : List (String × CatalogQuery)) (q : CatalogQuery)
    (h : Ev.query q ∈ runQueries w pmFmt qs) :
    ∃ pm', (pm', q) ∈ qs := by
  induction qs with
  | nil => cases h
  | cons hd rest ih =>
    rcases hd with ⟨pm, q'⟩
    simp only [runQueries, List.cons_append, List.mem_cons,
      List.mem_append] at h
    rcases h with hq | h
    · have hqq := Ev.query.inj hq
      subst hqq
      exact ⟨pm, List.mem_cons_self _ _⟩
    rcases h with hin | hrest
    · exfalso
      rcases hcat : w.catalog pm q' with e | ps <;> rw [hcat] at hin
      · simp at hin
      · rcases h0 : (ps.length == 0) with _ | _ <;>
          simp [h0, List.mem_map] at hin
    · rcases ih hrest with ⟨pm', hm⟩
      exact ⟨pm', List.mem_cons_of_mem _ hm⟩

/-- A query accumulated in list mode comes from an argument the
compatibility probe claimed. -/
theorem listQueries_mem (w : PullWorld) (nc : Bool) (args : List String)
    (pm' : String) (q : CatalogQuery)
    (h : (pm', q) ∈ listQueries w nc args) :
    ∃ arg ∈ args, q = listQuery arg nc
      ∧ w.isCompat arg = .ok (pm', true) := by
  induction args with
  | nil => cases h
  | cons a rest ih =>
    simp only [listQueries] at h
    rcases hc : w.isCompat a with e | pb
    · rw [hc] at h
      rcases ih h with ⟨arg, hm, hq, hcc⟩
      exact ⟨arg, List.mem_cons_of_mem a hm, hq, hcc⟩
    · rcases pb with ⟨pm2, compat⟩
      rw [hc] at h
      cases compat with
      | false =>
        simp only [Bool.false_eq_true, if_false] at h
        rcases ih h with ⟨arg, hm, hq, hcc⟩
        exact ⟨arg, List.mem_cons_of_mem a hm, hq, hcc⟩
      | true =>
        simp only [if_true] at h
        rcases List.mem_cons.mp h with heq | hmem
        · rcases Prod.mk.injEq .. ▸ heq with ⟨h1, h2⟩
          exact ⟨a, List.mem_cons_self a rest, h2.symm ▸ rfl,
            by rw [hc, h1]⟩
        · rcases ih hmem with ⟨arg, hm, hq, hcc⟩
          exact ⟨arg, List.mem_cons_of_mem a hm, hq, hcc⟩

/-- C6: the pull operation is per-item fault tolerant.  In list mode
it always returns success; an argument no manager claims contributes
no catalog query to the run; and in the execution loop a failing
catalog query produces only a warning event and an empty result only a
not-found warning, each query being skipped without failing the batch.
-/
theorem C6_pull_fault_tolerance (opts : Pull) (args : List String)
    (w : PullWorld) (pm : String)
    (hdir : w.isDir = false)
    (hpm : managerOverride opts w = .ok pm) :
    (PullCmd opts args w).snd = .ok ()
  ∧ (∀ arg ∈ args,
      (∀ pm2, w.isCompat arg ≠ .ok (pm2, true)) →
      Ev.query (listQuery arg (!opts.ForceCache))
        ∉ (PullCmd opts args w).fst)
  ∧ (∀ (pmFmt pm' : String) (q : CatalogQuery)
        (qs : List (String × CatalogQuery)) (e : String),
      w.catalog pm' q = .error e →
      runQueries w pmFmt ((pm', q) :: qs)
        = Ev.query q :: Ev.warnQueryErr pmFmt q.name e
          :: runQueries w pmFmt qs)
  ∧ (∀ (pmFmt pm' : String) (q : CatalogQuery)
        (qs : List (String × CatalogQuery)),
      w.catalog pm' q = .ok [] →
      runQueries w pmFmt ((pm', q) :: qs)
        = Ev.query q :: Ev.warnNotFound q :: runQueries w pmFmt qs) := by
  refine ⟨?_, ?_, ?_, ?_⟩
  · simp [PullCmd, hpm, hdir]
  · intro arg hargmem hinc hquery
    have hargsne : args ≠ [] := by
      intro hnil
      rw [hnil] at hargmem
      cases hargmem
    have hlen : (args.length == 0) = false := by simp [hargsne]
    simp only [PullCmd, hpm, hdir, hlen, Bool.false_eq_true, if_false,
      ite_false] at hquery
    rcases runQueries_query_mem w pm _ _ hquery with ⟨pm', hmem⟩
    rcases listQueries_mem w (!opts.ForceCache) args pm' _ hmem with
      ⟨arg2, hm2, hq2, hcc⟩
    have harg : arg2 = arg := (congrArg CatalogQuery.name hq2).symm
    exact hinc pm' (harg ▸ hcc)
  · intro pmFmt pm' q qs e hcat
    simp [runQueries, hcat]
  · intro pmFmt pm' q qs hcat
    simp [runQueries, hcat]

/-- C6 witness: pulling the list ["x", "bad", "y"], where "bad" has no
compatible manager and the catalog errors on "x" and finds nothing for
"y", still succeeds, and no query for "bad" is run. -/
theorem C6_pull_fault_tolerance_witness :
    (PullCmd {} ["x", "bad", "y"] pullWorldList).snd = .ok ()
      ∧ Ev.query (listQuery "bad" true)
          ∉ (PullCmd {} ["x", "bad", "y"] pullWorldList).fst := by
  have h := C6_pull_fault_tolerance {} ["x", "bad", "y"] pullWorldList
    "manifest" rfl rfl
  refine ⟨h.1, ?_⟩
  have hb := h.2.1 "bad" (by decide) ?_
  · exact hb
  · intro pm2 hc
    simp [pullWorldList] at hc

/-- C8: in pull directory mode on a project whose components cannot
be enumerated, a template catalog query returning zero packages makes
the operation fail with the not-found error identifying the template
component, and the trace holds only that one template query — no
per-component catalog query is run. -/
theorem C8_template_not_found (opts : Pull) (args : List String)
    (w : PullWorld) (pm : String) (e : String)
    (hdir : w.isDir = true)
    (hpm : managerOverride opts w = .ok pm)
    (hload : w.projectLoad = .ok ())
    (hcomps : w.componentsRes = .error e)
    (hcat : w.catalog pm (templateQuery w.template (!opts.ForceCache))
      = .ok []) :
    PullCmd opts args w
      = ([Ev.query (templateQuery w.template (!opts.ForceCache))],
        .error (.notFound w.template)) := by
  simp [PullCmd, hpm, hdir, dirQueries, hload, hcomps, hcat]

/-- C8 witness: the concrete directory-mode world whose components
cannot be enumerated and whose catalog is empty fails with the
template not-found error after exactly the template query. -/
theorem C8_template_not_found_witness :
    PullCmd {} ["/w"] pullWorldDir
      = ([Ev.query (templateQuery compTmpl true)],
        .error (.notFound compTmpl)) := by
  exact C8_template_not_found {} ["/w"] pullWorldDir "manifest"
    "no components" rfl rfl rfl rfl rfl

/-- Valid key=value arguments pass the validation loop unchanged. -/
theorem checkArgs_valid (args : List String)
    (h : ∀ arg ∈ args,
      arg.data.contains '=' = true ∧ arg.data.getLast? ≠ some '=') :
    checkArgs args = .ok args := by
  induction args with
  | nil => rfl
  | cons a rest ih =>
    rcases h a (List.mem_cons_self a rest) with ⟨h1, h2⟩
    have h1' : '=' ∈ a.data := by simpa using h1
    have h2' : (a.data.getLast? == some '=') = false := by simp [h2]
    simp [checkArgs, h1, h1', h2',
      ih fun v hv => h v (List.mem_cons_of_mem a hv)]

/-- C9: the Set command with valid key=value arguments on a working
directory without a `.config` file fails with the error naming the
expected `<workdir>/.config` path, and its trace is empty — the
project is neither loaded nor modified. -/
theorem C9_set_missing_dotconfig (opts : Set) (args : List String)
    (w : SetWorld) (workdir : String)
    (hargs : args ≠ [])
    (hvalid : ∀ arg ∈ args,
      arg.data.contains '=' = true ∧ arg.data.getLast? ≠ some '=')
    (hwd : (if opts.Workdir != "" then opts.Workdir else w.cwd)
      = workdir)
    (hmiss : w.fileExists (workdir ++ "/.config") = false) :
    SetCmd opts args w
      = ([], .error ("dotconfig file does not exist: "
          ++ (workdir ++ "/.config"))) := by
  have hlen : (args.length == 0) = false := by simp [hargs]
  have hwd' : (if opts.Workdir = "" then w.cwd else opts.Workdir)
      = workdir := by
    simpa using hwd
  simp [SetCmd, hlen, checkArgs_valid args hvalid, hwd', hmiss]

/-- C9 witness: setting "FOO=bar" in a workdir with no `.config` file
fails with the message naming `/w/.config`, with an empty trace. -/
theorem C9_set_missing_dotconfig_witness :
    SetCmd {} ["FOO=bar"] setWorld1
      = ([], .error ("dotconfig file does not exist: "
          ++ ("/w" ++ "/.config"))) := by
  exact C9_set_missing_dotconfig {} ["FOO=bar"] setWorld1 "/w"
    (by decide) (by decide) rfl rfl

end Unikraft
